import Mathlib

/-!
Verification of the openparcel service core against its specification.

This file is a shallow embedding of the parts of the source that the
claims are about:

* `src/openparcel/carriers/base.py` — the `BaseCarrier` parcel object:
  validation helpers (`is_tracking_code_valid`, `is_slug_valid`),
  similarity (`is_similar`), cache population (`from_cache`) and the
  response dictionary (`get_resp_dict`).
* `src/app.py` — the freshness decision (`should_refresh_parcel`), the
  `track` error surfacing and the `save_parcel_id` handler.
* `src/openparcel/scraper.py` — the scraping pool: `ScrapeOperation.run`,
  `merge_resp_into`, and `ScrapingPool.fetch` / `run_instance` /
  `add_instance` / `drop_instance`, plus a small-step transition system
  for interleaved `fetch` coroutines.
* `src/openparcel/exceptions.py` — the error taxonomy, in particular the
  construction of `ScrapingReturnedError`.
* `src/openparcel/proxies.py` — `Proxy.test` and `Proxy.save`.

Machine details that the claims do not touch (database connections,
loggers, the headless browser driver, wall-clock time) are abstracted:
timestamps are integers, the scraped JSON payload is an opaque
association list, and probe results of a proxy test are an explicit
outcome assignment.
-/

/-- Opaque stand-in for the normalized tracking-history JSON payload
(the `_resp_dict` attribute of `BaseCarrier`). Its internal structure is
irrelevant to the claims; only identity of the whole payload matters. -/
abbrev RespDict := List (String × String)

/-- Model of a `BaseCarrier` instance (`src/openparcel/carriers/base.py`).
`uid` and `name` are the carrier class attributes; the remaining fields
are the per-parcel instance attributes set in `BaseCarrier.__init__`.
Timestamps are abstracted to integers. -/
structure Parcel where
  uid : String
  name : String
  tracking_code : String
  slug : Option String
  db_id : Option Int
  parcel_name : Option String
  archived : Bool
  cached : Bool
  created : Int
  last_updated : Int
  resp : Option RespDict
deriving DecidableEq, Repr

/-- Model of `BaseCarrier.is_similar` (base.py lines 120-127): when both
slugs are present the result is slug equality alone; only otherwise are
the carrier display name and the tracking code compared. -/
def Parcel.is_similar (self other : Parcel) : Bool :=
  if self.slug.isSome && other.slug.isSome then
    decide (self.slug = other.slug)
  else
    self.name == other.name && self.tracking_code == other.tracking_code

/-- The character class `[A-Za-z0-9-]` used by the tracking-code checks. -/
def is_tracking_char (c : Char) : Bool :=
  ('A' ≤ c && c ≤ 'Z') || ('a' ≤ c && c ≤ 'z') || ('0' ≤ c && c ≤ '9') || c = '-'

/-- Model of `BaseCarrier.is_tracking_code_valid` (base.py lines 114-118):
the code runs `re.search` for one-or-more characters OUTSIDE the class
`[A-Za-z0-9-]` and declares the code valid when none is found. Hence the
code is valid exactly when every character is in the class; the empty
string vacuously passes. -/
def is_tracking_code_valid (s : String) : Bool :=
  s.toList.all is_tracking_char

/-- The spec predicate of claim C7 stated as the regex `^[A-Za-z0-9-]+$`:
at least one character, all of them in the class. -/
def matches_tracking_code_regex (s : String) : Bool :=
  !s.toList.isEmpty && s.toList.all is_tracking_char

/-- The character class `[a-z-0-9]` of the slug regex. -/
def is_slug_char (c : Char) : Bool :=
  ('a' ≤ c && c ≤ 'z') || c = '-' || ('0' ≤ c && c ≤ '9')

/-- Model of `BaseCarrier.is_slug_valid` (base.py lines 104-112): length
at most 35 and a full match of `^[a-z-0-9]+$`. -/
def is_slug_valid (slug : String) : Bool :=
  if slug.length > 35 then false
  else !slug.toList.isEmpty && slug.toList.all is_slug_char

/-- Model of the titled exceptions of `src/openparcel/exceptions.py`:
a title, a human-readable message and an HTTP status code. -/
structure TitledError where
  title : String
  message : String
  status_code : Nat
deriving DecidableEq, Repr

/-- The `TrackingCodeInvalid` exception (exceptions.py lines 61-67):
status code 422. -/
def TrackingCodeInvalid : TitledError :=
  { title := "Invalid tracking code"
    message := "The provided tracking code contains invalid characters."
    status_code := 422 }

/-- The `ServerOverwhelmedError` exception (exceptions.py lines 82-97):
status code 503. -/
def ServerOverwhelmedError : TitledError :=
  { title := "Service overwhelmed"
    message := "The service is currently experiencing a lot of traffic or is undergoing maintenance. Please try again later."
    status_code := 503 }

/-- Model of the tracking-code validation step of the `track` and
`save_parcel` handlers (app.py lines 358-360 and 772-773): an invalid
code raises `TrackingCodeInvalid`. -/
def track_validate_code (code : String) : Option TitledError :=
  if is_tracking_code_valid code then none else some TrackingCodeInvalid

/-- Model of `should_refresh_parcel` (app.py lines 322-326). The
configured cache refresh timeout (a configuration value, read from the
config module which is not part of the repository sources) is passed as
a parameter. The source
returns `force or (not parcel.archived and abs(timediff) >= timeout)`. -/
def should_refresh_parcel (parcel : Parcel) (timediff : Int) (force : Bool)
    (refresh_timeout : Int) : Bool :=
  force || (!parcel.archived && decide (refresh_timeout ≤ |timediff|))

/-- Claim C2 rendered as a definition, following the spec words: archived
wins over force; then force; then the timeout comparison. Compared
against `should_refresh_parcel`, which is taken from the source. -/
def should_refresh_spec (parcel : Parcel) (timediff : Int) (force : Bool)
    (refresh_timeout : Int) : Bool :=
  if parcel.archived then false
  else if force then true
  else decide (refresh_timeout ≤ |timediff|)

/-- Claim C6 rendered as a definition, following the spec words: similar
when slugs are both present and equal, or when the carrier id and
tracking code match. -/
def is_similar_spec (a b : Parcel) : Bool :=
  (a.slug.isSome && b.slug.isSome && decide (a.slug = b.slug))
    || (a.uid == b.uid && a.tracking_code == b.tracking_code)

/-- A concrete parcel used in concrete evaluations: a CTT parcel fresh
from the constructor (no slug, no database id). -/
def parcelA : Parcel :=
  { uid := "ctt", name := "CTT", tracking_code := "RR123456789PT"
    slug := none, db_id := none, parcel_name := none, archived := false
    cached := false, created := 0, last_updated := 0, resp := none }

/-- A second distinct parcel (different tracking code). -/
def parcelB : Parcel :=
  { uid := "dhl", name := "DHL", tracking_code := "JD0123456789"
    slug := none, db_id := none, parcel_name := none, archived := false
    cached := false, created := 0, last_updated := 0, resp := none }

/-- An archived variant of `parcelA`. -/
def parcelArchived : Parcel := { parcelA with archived := true }

/-- Variant of `parcelA` carrying one slug. -/
def parcelSlugX : Parcel := { parcelA with slug := some "ctt-rr123456-aaaa" }

/-- The same parcel identity as `parcelSlugX` but carrying a different
slug. -/
def parcelSlugY : Parcel := { parcelA with slug := some "ctt-rr123456-bbbb" }

/-- C2 counterexample: on an archived parcel with `force = true` the
source returns `true` (force wins), while the claim demands `false`
(archived wins) for every `diff_secs`; shown here at `diff_secs = 0`,
`refresh_timeout = 600`. -/
theorem should_refresh_archived_force_counterexample :
    should_refresh_parcel parcelArchived 0 true 600 = true
      ∧ should_refresh_spec parcelArchived 0 true 600 = false := by
  constructor <;> rfl

/-- C2 amended: `should_refresh_parcel` returns true whenever `force` is
true, even for archived parcels; otherwise it returns false for archived
parcels, and for the rest exactly when `|diff_secs|` is at least the
refresh timeout. -/
theorem should_refresh_parcel_characterization :
    ∀ (p : Parcel) (timediff : Int) (force : Bool) (refresh_timeout : Int),
      should_refresh_parcel p timediff force refresh_timeout
        = (if force then true
           else if p.archived then false
           else decide (refresh_timeout ≤ |timediff|)) := by
  intro p timediff force refresh_timeout
  cases force <;> cases h : p.archived <;>
    simp [should_refresh_parcel, h]

/-- C6 counterexample: two parcels with the same carrier and tracking
code but different present slugs. The source declares them NOT similar
(slug comparison short-circuits), while the claim declares them
similar via the `(carrier_id, tracking_code)` pair. -/
theorem is_similar_differing_slugs_counterexample :
    Parcel.is_similar parcelSlugX parcelSlugY = false
      ∧ is_similar_spec parcelSlugX parcelSlugY = true := by
  constructor <;> rfl

/-- C6 amended: two parcels are similar exactly when their slugs are both
present and equal, or when at least one slug is absent and their carrier
display names and tracking codes match. A matching `(carrier,
tracking_code)` pair is NOT sufficient when both parcels carry slugs
that differ. -/
theorem is_similar_characterization :
    ∀ a b : Parcel,
      a.is_similar b = true ↔
        ((∃ s, a.slug = some s ∧ b.slug = some s)
          ∨ ((a.slug = none ∨ b.slug = none)
              ∧ a.name = b.name ∧ a.tracking_code = b.tracking_code)) := by
  intro a b
  cases ha : a.slug <;> cases hb : b.slug <;>
    · simp [Parcel.is_similar, ha, hb]
      try exact eq_comm

/-- Witness for `is_similar_characterization`: instantiated on the
concrete slug-bearing parcel `parcelSlugX` against itself. -/
theorem is_similar_characterization_witness :
    Parcel.is_similar parcelSlugX parcelSlugX = true :=
  (is_similar_characterization parcelSlugX parcelSlugX).mpr
    (Or.inl ⟨"ctt-rr123456-aaaa", rfl, rfl⟩)

/-- C7 counterexample: the empty tracking code. The source accepts it
(`re.search` for an invalid character finds nothing), while the claim
regex `^[A-Za-z0-9-]+$` requires at least one character. -/
theorem tracking_code_empty_counterexample :
    is_tracking_code_valid "" = true
      ∧ matches_tracking_code_regex "" = false := by
  constructor <;> rfl

/-- C7 amended: `is_tracking_code_valid` accepts exactly the strings all
of whose characters lie in `[A-Za-z0-9-]` — the regex `^[A-Za-z0-9-]+$`
relaxed to accept the empty string as well — and any code it rejects is
answered by the endpoints with the `TrackingCodeInvalid` error, HTTP
status 422. -/
theorem is_tracking_code_valid_amended :
    ∀ s : String,
      (is_tracking_code_valid s
        = (s.toList.isEmpty || matches_tracking_code_regex s))
      ∧ (∀ e, track_validate_code s = some e →
          e = TrackingCodeInvalid ∧ e.status_code = 422
            ∧ is_tracking_code_valid s = false) := by
  intro s
  constructor
  · obtain ⟨l⟩ := s
    cases l <;> rfl
  · intro e he
    by_cases hv : is_tracking_code_valid s
    · simp [track_validate_code, hv] at he
    · simp [track_validate_code, hv] at he
      simp [← he, TrackingCodeInvalid, hv]

/-- Witness for `is_tracking_code_valid_amended`: instantiated at the
concrete invalid code "ab!". -/
theorem is_tracking_code_valid_amended_witness :
    TrackingCodeInvalid = TrackingCodeInvalid
      ∧ TrackingCodeInvalid.status_code = 422
      ∧ is_tracking_code_valid "ab!" = false :=
  (is_tracking_code_valid_amended "ab!").2 TrackingCodeInvalid (by decide)

/-- An exception captured by the scraping worker thread
(`ScrapeOperation.store_exception`, scraper.py lines 106-117). The two
named constructors are the classified errors the pool treats specially. -/
inductive ScrapeExc where
  | parcelNotFound
  | invalidTrackingCode
  | otherExc (description : String)
deriving DecidableEq, Repr

/-- Model of a `ScrapeOperation` record (scraper.py lines 13-49) as far
as the claims see it: the identity of the operation (the creating fetch
call) and its base parcel. The thread, logger and state lock are
irrelevant to the list membership claims. -/
structure ScrapeOp where
  task_id : Nat
  base_parcel : Parcel
deriving DecidableEq, Repr

/-- Model of `ScrapeOperation.run` (scraper.py lines 73-88): after the
worker thread is joined, any exception captured by the worker is
re-raised to the caller; otherwise run returns normally. -/
def op_run (stored_exception : Option ScrapeExc) : Except ScrapeExc Unit :=
  match stored_exception with
  | some e => Except.error e
  | none => Except.ok ()

/-- Model of `ScrapingPool.get_operation` (scraper.py lines 199-209):
the first in-flight instance whose base parcel is similar to the
requested parcel, if any. -/
def get_operation (instances : List ScrapeOp) (parcel : Parcel) : Option ScrapeOp :=
  instances.find? (fun inst => inst.base_parcel.is_similar parcel)

/-- Model of `ScrapingPool.add_instance` (scraper.py lines 218-221):
append the operation to the instances list. -/
def add_instance (instances : List ScrapeOp) (op : ScrapeOp) : List ScrapeOp :=
  instances ++ [op]

/-- Model of `ScrapingPool.drop_instance` (scraper.py lines 223-226):
remove the operation from the instances list. -/
def drop_instance (instances : List ScrapeOp) (op : ScrapeOp) : List ScrapeOp :=
  instances.erase op

/-- Model of `ScrapingPool.run_instance` (scraper.py lines 211-216). The
source is `await self.add_instance(op); await op.run(); await
self.drop_instance(op)` with NO try/finally: when `op.run()` re-raises
the exception stored by the worker, `drop_instance` is never executed
and the operation stays in the returned instances list. The second
component is the exception propagating out, if any. -/
def run_instance (instances : List ScrapeOp) (op : ScrapeOp)
    (stored_exception : Option ScrapeExc) : List ScrapeOp × Option ScrapeExc :=
  let appended := add_instance instances op
  match op_run stored_exception with
  | Except.ok _ => (drop_instance appended op, none)
  | Except.error e => (appended, some e)

/-- Outcome of a `ScrapingPool.fetch` call (scraper.py lines 165-197):
either `DuplicateScrapingOperation` was raised carrying the in-flight
operation, or the admission wait timed out (`TimeoutError`), or the
operation ran to completion, or the operation ran and re-raised the
worker exception. -/
inductive FetchResult where
  | duplicate (op : ScrapeOp)
  | timeoutError
  | finished (op : ScrapeOp)
  | raised (op : ScrapeOp) (e : ScrapeExc)
deriving DecidableEq, Repr

/-- Model of `ScrapingPool.fetch` (scraper.py lines 165-197) as one
sequential call. `admitted_later` abstracts the environment: whether,
when the list is initially full, enough instances drop out before the
caller deadline for the availability poll to succeed (when the list is
not full the poll succeeds immediately and the deadline is irrelevant).
`stored_exception` is the outcome of the worker thread of the new
operation. Returns the result and the instances list as left behind. -/
def ScrapingPool.fetch (instances : List ScrapeOp) (max_instances : Nat)
    (parcel : Parcel) (task_id : Nat) (admitted_later : Bool)
    (stored_exception : Option ScrapeExc) : FetchResult × List ScrapeOp :=
  match get_operation instances parcel with
  | some op => (FetchResult.duplicate op, instances)
  | none =>
    if instances.length < max_instances || admitted_later then
      match run_instance instances { task_id := task_id, base_parcel := parcel }
          stored_exception with
      | (l, none) => (FetchResult.finished { task_id := task_id, base_parcel := parcel }, l)
      | (l, some e) =>
          (FetchResult.raised { task_id := task_id, base_parcel := parcel } e, l)
    else (FetchResult.timeoutError, instances)

/-- Model of the error surfacing in the `track` handler (app.py lines
496-500): a `TimeoutError` escaping `scraping_pool.fetch` is converted
to `ServerOverwhelmedError`. The other fetch outcomes are not mapped by
that clause. -/
def track_surface (r : FetchResult) : Option TitledError :=
  match r with
  | FetchResult.timeoutError => some ServerOverwhelmedError
  | _ => none

/-- The concrete in-flight operation on `parcelA` used in evaluations. -/
def opA : ScrapeOp := { task_id := 0, base_parcel := parcelA }

/-- C1: a fetch that admits an operation whose worker stored an
exception does NOT remove the operation from the instances list:
`run_instance` re-raises out of `op.run()` before `drop_instance`, so
the finished operation stays behind, and a later fetch for the same
parcel identity coalesces on the stale operation (raising
`DuplicateScrapingOperation`) instead of retrying the scrape. Evaluated
at the failing input: an empty pool, one fetch of `parcelA` whose worker
stored `ParcelNotFound`. -/
theorem run_instance_leaks_operation_on_exception :
    run_instance [] opA (some ScrapeExc.parcelNotFound)
        = ([opA], some ScrapeExc.parcelNotFound)
      ∧ ScrapingPool.fetch [] 5 parcelA 0 false (some ScrapeExc.parcelNotFound)
        = (FetchResult.raised opA ScrapeExc.parcelNotFound, [opA])
      ∧ get_operation [opA] parcelA = some opA
      ∧ ScrapingPool.fetch [opA] 5 parcelA 1 false none
        = (FetchResult.duplicate opA, [opA]) := by
  refine ⟨rfl, ?_, rfl, rfl⟩
  rfl

/-- C3: (a) when the instances list already holds an operation similar
to the requested parcel, `fetch` raises `DuplicateScrapingOperation`
carrying that operation and leaves the list untouched; the carried
operation is a member of the list and is similar to the request. (b)
when no similar operation exists, the list is full, and no slot opens
before the deadline, `fetch` fails with the admission `TimeoutError`,
which the `track` handler surfaces as `ServerOverwhelmedError` with
HTTP status 503. -/
theorem fetch_single_flight_and_overwhelmed :
    ∀ (instances : List ScrapeOp) (max_instances task_id : Nat)
      (parcel : Parcel) (admitted_later : Bool) (exc : Option ScrapeExc),
      (∀ op, get_operation instances parcel = some op →
        ScrapingPool.fetch instances max_instances parcel task_id admitted_later exc
            = (FetchResult.duplicate op, instances)
          ∧ op ∈ instances ∧ op.base_parcel.is_similar parcel = true)
      ∧ (get_operation instances parcel = none →
          max_instances ≤ instances.length →
          admitted_later = false →
          ScrapingPool.fetch instances max_instances parcel task_id admitted_later exc
              = (FetchResult.timeoutError, instances)
            ∧ track_surface FetchResult.timeoutError = some ServerOverwhelmedError
            ∧ ServerOverwhelmedError.status_code = 503) := by
  intro instances max_instances task_id parcel admitted_later exc
  constructor
  · intro op hop
    have hop' : instances.find? (fun inst => inst.base_parcel.is_similar parcel)
        = some op := hop
    have hsim := List.find?_some hop'
    refine ⟨?_, List.mem_of_find?_eq_some hop', hsim⟩
    unfold ScrapingPool.fetch
    rw [hop]
  · intro hnone hfull hadm
    refine ⟨?_, rfl, rfl⟩
    unfold ScrapingPool.fetch
    rw [hnone, hadm]
    have hlt : ¬ instances.length < max_instances := by omega
    simp [hlt]

/-- Witness for `fetch_single_flight_and_overwhelmed`: both branches
instantiated concretely — a duplicate fetch of `parcelA` against a pool
already scraping it, and a fetch of `parcelB` against a full pool of
size 1 with no slot opening before the deadline. -/
theorem fetch_single_flight_and_overwhelmed_witness :
    (ScrapingPool.fetch [opA] 5 parcelA 1 false none
        = (FetchResult.duplicate opA, [opA])
      ∧ opA ∈ [opA] ∧ opA.base_parcel.is_similar parcelA = true)
    ∧ (ScrapingPool.fetch [opA] 1 parcelB 1 false none
        = (FetchResult.timeoutError, [opA])
      ∧ track_surface FetchResult.timeoutError = some ServerOverwhelmedError
      ∧ ServerOverwhelmedError.status_code = 503) :=
  ⟨(fetch_single_flight_and_overwhelmed [opA] 5 1 parcelA false none).1 opA (by decide),
   (fetch_single_flight_and_overwhelmed [opA] 1 1 parcelB false none).2 (by decide)
     (by decide) rfl⟩

/-!
Interleaved executions of `ScrapingPool.fetch`.

The pool runs under `asyncio`: scheduling is cooperative, so a coroutine
can only be preempted at a genuine suspension point. In
`ScrapingPool.fetch` the suspension points are the `asyncio.sleep(.3)`
calls of the availability poll (and, inside `ScrapeOperation.run`, the
sleep loop and the thread join). The `asyncio.Lock` around the
instances list is acquired only inside `get_operation`, `add_instance`,
`drop_instance` and `is_available`, none of which suspends while holding
it, so every lock acquisition finds the lock free and does not yield.
Consequently each of the following blocks executes atomically:

* from coroutine start through the duplicate check and, when a slot is
  free, the append of the new operation (`start_*` steps below);
* from waking out of the availability-poll sleep through the re-check
  and, on success, the append (`wake_*` steps below — note the source
  re-checks only availability, not similarity);
* the completion of a run: on success the removal of the operation, on a
  re-raised worker exception no removal at all (`finish_*` steps).

A caller deadline (`asyncio.timeout`) can only fire while the coroutine
is suspended in the poll sleep, which the `wake_timeout` step models.
-/

/-- Phase of one `fetch` coroutine in the interleaved model. -/
inductive TaskPhase where
  | ready
  | waiting
  | running (op : ScrapeOp)
  | finished (r : FetchResult)
deriving DecidableEq, Repr

/-- One `fetch` coroutine: the requested parcel and the current phase. -/
structure FetchTask where
  parcel : Parcel
  phase : TaskPhase
deriving DecidableEq, Repr

/-- Global state of the scraping pool together with its client
coroutines: the `max_instances` bound, the shared instances list, and
the coroutines (indexed by position; the position doubles as the
`task_id` of the operation a coroutine creates). -/
structure PoolState where
  max_instances : Nat
  instances : List ScrapeOp
  tasks : List FetchTask
deriving DecidableEq, Repr

/-- Small-step transition relation of the pool, one constructor per
atomic block of `ScrapingPool.fetch` (see the module comment above). -/
inductive PoolStep : PoolState → PoolState → Prop where
  | start_duplicate (s : PoolState) (i : Nat) (p : Parcel) (op : ScrapeOp) :
      s.tasks[i]? = some { parcel := p, phase := TaskPhase.ready } →
      get_operation s.instances p = some op →
      PoolStep s { s with
        tasks := s.tasks.set i { parcel := p, phase := TaskPhase.finished (FetchResult.duplicate op) } }
  | start_admit (s : PoolState) (i : Nat) (p : Parcel) :
      s.tasks[i]? = some { parcel := p, phase := TaskPhase.ready } →
      get_operation s.instances p = none →
      s.instances.length < s.max_instances →
      PoolStep s { s with
        instances := add_instance s.instances { task_id := i, base_parcel := p },
        tasks := s.tasks.set i { parcel := p, phase := TaskPhase.running { task_id := i, base_parcel := p } } }
  | start_wait (s : PoolState) (i : Nat) (p : Parcel) :
      s.tasks[i]? = some { parcel := p, phase := TaskPhase.ready } →
      get_operation s.instances p = none →
      ¬ s.instances.length < s.max_instances →
      PoolStep s { s with
        tasks := s.tasks.set i { parcel := p, phase := TaskPhase.waiting } }
  | wake_admit (s : PoolState) (i : Nat) (p : Parcel) :
      s.tasks[i]? = some { parcel := p, phase := TaskPhase.waiting } →
      s.instances.length < s.max_instances →
      PoolStep s { s with
        instances := add_instance s.instances { task_id := i, base_parcel := p },
        tasks := s.tasks.set i { parcel := p, phase := TaskPhase.running { task_id := i, base_parcel := p } } }
  | wake_timeout (s : PoolState) (i : Nat) (p : Parcel) :
      s.tasks[i]? = some { parcel := p, phase := TaskPhase.waiting } →
      PoolStep s { s with
        tasks := s.tasks.set i { parcel := p, phase := TaskPhase.finished FetchResult.timeoutError } }
  | finish_ok (s : PoolState) (i : Nat) (p : Parcel) (op : ScrapeOp) :
      s.tasks[i]? = some { parcel := p, phase := TaskPhase.running op } →
      PoolStep s { s with
        instances := drop_instance s.instances op,
        tasks := s.tasks.set i { parcel := p, phase := TaskPhase.finished (FetchResult.finished op) } }
  | finish_raise (s : PoolState) (i : Nat) (p : Parcel) (op : ScrapeOp) (e : ScrapeExc) :
      s.tasks[i]? = some { parcel := p, phase := TaskPhase.running op } →
      PoolStep s { s with
        tasks := s.tasks.set i { parcel := p, phase := TaskPhase.finished (FetchResult.raised op e) } }

/-- Reflexive-transitive closure of `PoolStep`. -/
inductive PoolReachable : PoolState → PoolState → Prop where
  | refl (s : PoolState) : PoolReachable s s
  | tail (s t u : PoolState) :
      PoolReachable s t → PoolStep t u → PoolReachable s u

/-- Every step keeps the bound and never grows the instances list past
`max_instances`: the two appending steps are guarded by the admission
check inside the same atomic block. -/
theorem poolStep_preserves_bound (s u : PoolState) (h : PoolStep s u) :
    u.max_instances = s.max_instances
      ∧ (s.instances.length ≤ s.max_instances
          → u.instances.length ≤ u.max_instances) := by
  cases h with
  | start_duplicate i p op h1 h2 => exact ⟨rfl, fun hb => hb⟩
  | start_admit i p h1 h2 h3 =>
      refine ⟨rfl, fun _ => ?_⟩
      simpa [add_instance] using h3
  | start_wait i p h1 h2 h3 => exact ⟨rfl, fun hb => hb⟩
  | wake_admit i p h1 h2 =>
      refine ⟨rfl, fun _ => ?_⟩
      simpa [add_instance] using h2
  | wake_timeout i p h1 => exact ⟨rfl, fun hb => hb⟩
  | finish_ok i p op h1 =>
      refine ⟨rfl, fun hb => ?_⟩
      exact le_trans ((s.instances.erase_sublist op).length_le) hb
  | finish_raise i p op e h1 => exact ⟨rfl, fun hb => hb⟩

/-- C4: in every state reachable, under any interleaving of `fetch`
coroutines, from a state with an empty instances list, the length of the
instances list never exceeds `max_instances`. -/
theorem pool_instances_length_le_max :
    ∀ s₀ s : PoolState, s₀.instances = [] → PoolReachable s₀ s →
      s.instances.length ≤ s.max_instances := by
  intro s₀ s hinit hreach
  induction hreach with
  | refl => simp [hinit]
  | tail t u hst hstep ih =>
      obtain ⟨hmax, hpres⟩ := poolStep_preserves_bound t u hstep
      rw [hmax]
      rw [hmax] at hpres
      exact hpres ih

/-- A concrete initial pool state: bound 1, empty instances list, two
coroutines about to fetch `parcelA` and `parcelB`. -/
def poolInitW : PoolState :=
  { max_instances := 1, instances := [],
    tasks := [{ parcel := parcelA, phase := TaskPhase.ready },
              { parcel := parcelB, phase := TaskPhase.ready }] }

/-- The state after the first coroutine of `poolInitW` is admitted. -/
def poolStateW : PoolState :=
  { poolInitW with
    instances := add_instance poolInitW.instances { task_id := 0, base_parcel := parcelA },
    tasks := poolInitW.tasks.set 0 { parcel := parcelA, phase := TaskPhase.running { task_id := 0, base_parcel := parcelA } } }

/-- Witness for `pool_instances_length_le_max`: the bound evaluated on
the concrete reachable state `poolStateW` (one admission step from the
initial state `poolInitW`). -/
theorem pool_instances_length_le_max_witness :
    poolStateW.instances.length ≤ poolStateW.max_instances :=
  pool_instances_length_le_max poolInitW poolStateW rfl
    (PoolReachable.tail poolInitW poolInitW poolStateW
      (PoolReachable.refl poolInitW)
      (PoolStep.start_admit poolInitW 0 parcelA rfl rfl (by decide)))

/-- Model of `BaseCarrier.set_parcel_id` (base.py lines 57-59). -/
def Parcel.set_parcel_id (p : Parcel) (parcel_id : Int) : Parcel :=
  { p with db_id := some parcel_id }

/-- Model of `BaseCarrier.from_cache` (base.py lines 74-85): populate
the object with cached data — response payload, database id, slug, user
parcel name, archived flag, `cached := true`, and both timestamps. -/
def Parcel.from_cache (p : Parcel) (db_id : Int) (cache : Option RespDict)
    (created last_updated : Int) (slug : Option String)
    (parcel_name : Option String) (archived : Bool) : Parcel :=
  let p1 := { p with resp := cache }
  let p2 := p1.set_parcel_id db_id
  { p2 with
    slug := slug
    parcel_name := parcel_name
    archived := archived
    cached := true
    created := created
    last_updated := last_updated }

/-- Model of `BaseCarrier.get_resp_dict` with `bare=True` (base.py lines
129-141): with `bare` the object dictionary is not merged in and the
stored response payload is returned as is. -/
def Parcel.get_resp_dict_bare (p : Parcel) : Option RespDict := p.resp

/-- Model of `ScrapeOperation.merge_resp_into` (scraper.py lines
90-104): populate the waiter parcel from the base parcel via
`from_cache` — passing the waiter its OWN `parcel_name` and `archived`
values — then clear the `cached` flag. The source calls
`int(db_id)` inside `set_parcel_id`, which fails on `None`; the model
returns `none` in that case. -/
def merge_resp_into (base : Parcel) (parcel : Parcel) : Option Parcel :=
  match base.db_id with
  | none => none
  | some i =>
    let merged := parcel.from_cache i base.get_resp_dict_bare base.created
      base.last_updated base.slug parcel.parcel_name parcel.archived
    some { merged with cached := false }

/-- C5: for a completed operation whose base parcel has a database id,
`merge_resp_into` copies exactly `db_id`, the bare response payload,
`slug`, `created` and `last_updated` from the base parcel into the
waiter, sets the waiter `cached` flag to false, and leaves the waiter
`parcel_name`, `archived`, carrier identity and tracking code
unchanged. -/
theorem merge_resp_into_copies :
    ∀ (base waiter : Parcel) (i : Int), base.db_id = some i →
      ∃ w, merge_resp_into base waiter = some w
        ∧ w.db_id = some i ∧ w.resp = base.resp ∧ w.slug = base.slug
        ∧ w.created = base.created ∧ w.last_updated = base.last_updated
        ∧ w.cached = false
        ∧ w.parcel_name = waiter.parcel_name ∧ w.archived = waiter.archived
        ∧ w.uid = waiter.uid ∧ w.name = waiter.name
        ∧ w.tracking_code = waiter.tracking_code := by
  intro base waiter i h
  unfold merge_resp_into
  rw [h]
  refine ⟨_, rfl, ?_, ?_, ?_, ?_, ?_, ?_, ?_, ?_, ?_, ?_, ?_⟩ <;>
    simp [Parcel.from_cache, Parcel.set_parcel_id, Parcel.get_resp_dict_bare]

/-- A scraped base parcel with database id 7 and a concrete payload. -/
def parcelBase : Parcel :=
  { uid := "ctt", name := "CTT", tracking_code := "RR123456789PT",
    slug := some "ctt-rr123456-cafe", db_id := some 7,
    parcel_name := none, archived := false, cached := false,
    created := 100, last_updated := 200, resp := some [("status", "delivered")] }

/-- A waiter for the same parcel identity with its own user data. -/
def parcelWaiter : Parcel :=
  { parcelA with parcel_name := some "My package", archived := true }

/-- Witness for `merge_resp_into_copies`: instantiated on the concrete
base parcel `parcelBase` (db id 7) and waiter `parcelWaiter`. -/
theorem merge_resp_into_copies_witness :
    ∃ w, merge_resp_into parcelBase parcelWaiter = some w
      ∧ w.db_id = some 7 ∧ w.resp = parcelBase.resp ∧ w.slug = parcelBase.slug
      ∧ w.created = parcelBase.created ∧ w.last_updated = parcelBase.last_updated
      ∧ w.cached = false
      ∧ w.parcel_name = parcelWaiter.parcel_name ∧ w.archived = parcelWaiter.archived
      ∧ w.uid = parcelWaiter.uid ∧ w.name = parcelWaiter.name
      ∧ w.tracking_code = parcelWaiter.tracking_code :=
  merge_resp_into_copies parcelBase parcelWaiter 7 rfl

/-- Model of `ScrapingReturnedError._get_title` (exceptions.py lines
131-145). The second component is the returned title. The first
component records the side effect of the fall-through branch: for a
code name that matches none of the five known cases, the method
executes `self.status_code = 500` before returning. -/
def scraping_get_title (code : String) : Option Nat × String :=
  match code with
  | "ParcelNotFound" => (none, "Parcel not found")
  | "InvalidTrackingCode" => (none, "Invalid tracking code")
  | "RateLimiting" => (none, "Too many requests")
  | "Blocked" => (none, "Blocked by carrier")
  | "ProxyTimeout" => (none, "Proxy server timeout")
  | _ => (some 500, "Unknown error")

/-- Model of the `ScrapingReturnedError` object as far as the claims
read it: the classified code name, the title and the final status
code. The long description strings are elided. -/
structure ScrapingReturnedError where
  code : String
  title : String
  status_code : Nat
deriving DecidableEq, Repr

/-- Model of `ScrapingReturnedError.__init__` (exceptions.py lines
125-129): it calls `super().__init__(self._get_title(),
self._get_description(), 422)`. Python evaluates the arguments first —
running `_get_title`, whose fall-through branch assigns
`self.status_code = 500` for an unknown code — and THEN
`TitledException.__init__` assigns `self.status_code = 422`
unconditionally, overwriting the 500. The first component is the
transient status written by `_get_title` (when any); the second is the
constructed object with its final field values. -/
def mkScrapingReturnedError (code : String) : Option Nat × ScrapingReturnedError :=
  ((scraping_get_title code).1,
   { code := code, title := (scraping_get_title code).2, status_code := 422 })

/-- C8: evaluation of the constructor model. Every classified code
yields status 422 as the claim states; BUT an unknown code name also
yields a final status of 422 — the `self.status_code = 500` assignment
in `_get_title` (visible as the transient component here) is
overwritten by `TitledException.__init__`, so the claimed 500 for
unknown codes never survives construction. -/
theorem scraping_returned_error_status_always_422 :
    (∀ code, (mkScrapingReturnedError code).2.status_code = 422)
      ∧ (mkScrapingReturnedError "ParcelNotFound").2.status_code = 422
      ∧ (mkScrapingReturnedError "InvalidTrackingCode").2.status_code = 422
      ∧ (mkScrapingReturnedError "RateLimiting").2.status_code = 422
      ∧ (mkScrapingReturnedError "Blocked").2.status_code = 422
      ∧ (mkScrapingReturnedError "ProxyTimeout").2.status_code = 422
      ∧ (mkScrapingReturnedError "ElementNotFound").1 = some 500
      ∧ (mkScrapingReturnedError "ElementNotFound").2.status_code = 422
      ∧ (mkScrapingReturnedError "ElementNotFound").2.title = "Unknown error" :=
  ⟨fun _ => rfl, rfl, rfl, rfl, rfl, rfl, rfl, rfl, rfl⟩

/-- Outcome of probing one carrier during `Proxy.test` (proxies.py
lines 69-138): the fetch of the random tracking code either returned
normally, raised a `ScrapingReturnedError` with some code name after
`timing_ms` milliseconds, or crashed with a driver error
(`DrissionPage.errors.BaseError`). -/
inductive ProbeOutcome where
  | success (timing_ms : Nat)
  | scrapeError (code : String) (timing_ms : Nat)
  | driverError
deriving DecidableEq, Repr

/-- One iteration of the carrier loop of `Proxy.test`: append to the
accumulated `valid_carriers` on a plain success and on
`ParcelNotFound` / `InvalidTrackingCode`; skip `RateLimiting`,
`Blocked`, `ProxyTimeout`, unknown scraping errors and driver errors. -/
def proxy_probe_step (acc : List (String × Nat)) (pr : String × ProbeOutcome) :
    List (String × Nat) :=
  match pr.2 with
  | ProbeOutcome.success t => acc ++ [(pr.1, t)]
  | ProbeOutcome.scrapeError code t =>
      if code = "ParcelNotFound" ∨ code = "InvalidTrackingCode" then
        acc ++ [(pr.1, t)]
      else acc
  | ProbeOutcome.driverError => acc

/-- The `valid_carriers` list accumulated by the carrier loop of
`Proxy.test`, starting from the clean slate `[]`. -/
def proxy_test_valid_carriers (probes : List (String × ProbeOutcome)) :
    List (String × Nat) :=
  probes.foldl proxy_probe_step []

/-- Python `round` (round half to even) of the exact ratio
`total / count`: round half to even. `Proxy.test` computes
`round(sum(timings) / len(timings))`. The model divides exactly
instead of through IEEE doubles. -/
def pyRoundDiv (total count : Nat) : Nat :=
  let q := total / count
  let r := total % count
  if 2 * r < count then q
  else if count < 2 * r then q + 1
  else if q % 2 = 0 then q else q + 1

/-- Model of a `Proxy` row (proxies.py lines 28-47). -/
structure Proxy where
  addr : String
  port : Nat
  country : String
  speed : Int
  protocol : String
  active : Bool
  valid_carriers : List (String × Nat)
deriving DecidableEq, Repr

/-- Model of `Proxy.test` (proxies.py lines 69-138): reset
`valid_carriers`, run the carrier loop over the probe outcomes, and if
anything was recorded set `speed` to the rounded mean of the recorded
timings. Returns the updated proxy and the boolean result (false when
the proxy reached no carrier). -/
def Proxy.test (p : Proxy) (probes : List (String × ProbeOutcome)) : Proxy × Bool :=
  let vc := proxy_test_valid_carriers probes
  if vc.isEmpty then ({ p with valid_carriers := vc }, false)
  else
    ({ p with
        valid_carriers := vc
        speed := (pyRoundDiv (vc.map (fun it => it.2)).sum vc.length : Int) },
     true)

/-- Model of the state change of `Proxy.save` (proxies.py lines
156-165): a proxy whose last test recorded no valid carriers is
demoted to `active := false` before the row is written; the database
write itself is outside the model. -/
def Proxy.save (p : Proxy) : Proxy :=
  if p.valid_carriers.isEmpty then { p with active := false } else p

/-- Claim C9 rendered as a definition, following the spec words: the
carriers recorded are exactly those whose probe ended in
`ParcelNotFound` or `InvalidTrackingCode`. -/
def spec_valid_carriers (probes : List (String × ProbeOutcome)) :
    List (String × Nat) :=
  probes.filterMap (fun pr =>
    match pr.2 with
    | ProbeOutcome.scrapeError code t =>
        if code = "ParcelNotFound" ∨ code = "InvalidTrackingCode" then
          some (pr.1, t)
        else none
    | _ => none)

/-- The amended record rule: a probe is recorded on `ParcelNotFound`,
`InvalidTrackingCode` AND on an outright successful fetch (the source
comments this case as a miracle hit on a valid tracking code, and
records it). -/
def recorded_probe (pr : String × ProbeOutcome) : Option (String × Nat) :=
  match pr.2 with
  | ProbeOutcome.success t => some (pr.1, t)
  | ProbeOutcome.scrapeError code t =>
      if code = "ParcelNotFound" ∨ code = "InvalidTrackingCode" then
        some (pr.1, t)
      else none
  | ProbeOutcome.driverError => none

/-- A concrete proxy row used in evaluations. -/
def proxyW : Proxy :=
  { addr := "203.0.113.7", port := 8080, country := "PT", speed := 900,
    protocol := "socks5", active := true, valid_carriers := [] }

/-- C9 counterexample: a single carrier whose probe fetch returns
normally (a hit on a valid random tracking code). The source records it
in `valid_carriers`, while the claim says exactly the
`ParcelNotFound` / `InvalidTrackingCode` probes are recorded — an empty
list here. -/
theorem proxy_test_success_recorded_counterexample :
    (Proxy.test proxyW [("ctt", ProbeOutcome.success 120)]).1.valid_carriers
        = [("ctt", 120)]
      ∧ spec_valid_carriers [("ctt", ProbeOutcome.success 120)]
        = ([] : List (String × Nat)) := by
  constructor <;> rfl

/-- Each loop iteration appends exactly what `recorded_probe` yields. -/
theorem proxy_probe_step_eq (acc : List (String × Nat))
    (pr : String × ProbeOutcome) :
    proxy_probe_step acc pr = acc ++ (recorded_probe pr).toList := by
  rcases pr with ⟨id, o⟩
  cases o with
  | success t => rfl
  | scrapeError code t =>
      by_cases hc : code = "ParcelNotFound" ∨ code = "InvalidTrackingCode" <;>
        simp [proxy_probe_step, recorded_probe, hc]
  | driverError => simp [proxy_probe_step, recorded_probe]

/-- The carrier loop, from any accumulator, appends the recorded
probes in order. -/
theorem proxy_test_foldl_eq (probes : List (String × ProbeOutcome)) :
    ∀ acc : List (String × Nat),
      probes.foldl proxy_probe_step acc = acc ++ probes.filterMap recorded_probe := by
  induction probes with
  | nil => intro acc; simp
  | cons pr rest ih =>
      intro acc
      rw [List.foldl_cons, ih, proxy_probe_step_eq, List.filterMap_cons]
      cases h : recorded_probe pr <;> simp [h]

/-- C9 amended: after `Proxy.test` the `valid_carriers` list holds
exactly the carriers whose probe ended in an outright successful fetch
or in `ParcelNotFound` / `InvalidTrackingCode`, each with its recorded
timing (`RateLimiting`, `Blocked`, `ProxyTimeout`, unknown scraping
errors and driver errors are not recorded); the returned boolean is
false exactly when nothing was recorded; a proxy with an empty
`valid_carriers` is demoted to `active = false` by `save`, and
otherwise `save` keeps `active` and the test has set `speed` to the
(half-to-even) rounded mean of the recorded timings. -/
theorem proxy_test_characterization :
    ∀ (p : Proxy) (probes : List (String × ProbeOutcome)),
      ((Proxy.test p probes).1.valid_carriers = probes.filterMap recorded_probe)
      ∧ ((Proxy.test p probes).2 = !(probes.filterMap recorded_probe).isEmpty)
      ∧ ((probes.filterMap recorded_probe).isEmpty = true →
          ((Proxy.test p probes).1.save).active = false)
      ∧ ((probes.filterMap recorded_probe).isEmpty = false →
          ((Proxy.test p probes).1.save).active = p.active
          ∧ (Proxy.test p probes).1.speed
            = (pyRoundDiv ((probes.filterMap recorded_probe).map (fun it => it.2)).sum
                (probes.filterMap recorded_probe).length : Int)) := by
  intro p probes
  have hvc : proxy_test_valid_carriers probes = probes.filterMap recorded_probe := by
    unfold proxy_test_valid_carriers
    rw [proxy_test_foldl_eq]
    rfl
  by_cases he : (probes.filterMap recorded_probe).isEmpty
  · refine ⟨?_, ?_, fun _ => ?_, fun hcontra => by simp [he] at hcontra⟩ <;>
      simp [Proxy.test, Proxy.save, hvc, he]
  · have he' : (probes.filterMap recorded_probe).isEmpty = false := by
      simp at he
      simp [he]
    refine ⟨?_, ?_, fun hcontra => by simp [he'] at hcontra, fun _ => ⟨?_, ?_⟩⟩ <;>
      simp [Proxy.test, Proxy.save, hvc, he']

/-- Witness for `proxy_test_characterization`: instantiated on the
concrete proxy `proxyW` with one `ParcelNotFound` probe (timing 80) and
one `Blocked` probe, discharging the nonempty branch. -/
theorem proxy_test_characterization_witness :
    ((Proxy.test proxyW
        [("ctt", ProbeOutcome.scrapeError "ParcelNotFound" 80),
         ("dhl", ProbeOutcome.scrapeError "Blocked" 50)]).1.save).active = proxyW.active
      ∧ (Proxy.test proxyW
          [("ctt", ProbeOutcome.scrapeError "ParcelNotFound" 80),
           ("dhl", ProbeOutcome.scrapeError "Blocked" 50)]).1.speed
        = (pyRoundDiv (([("ctt", ProbeOutcome.scrapeError "ParcelNotFound" 80),
              ("dhl", ProbeOutcome.scrapeError "Blocked" 50)].filterMap recorded_probe).map
                (fun it => it.2)).sum
            ([("ctt", ProbeOutcome.scrapeError "ParcelNotFound" 80),
              ("dhl", ProbeOutcome.scrapeError "Blocked" 50)].filterMap recorded_probe).length
            : Int) :=
  (proxy_test_characterization proxyW
    [("ctt", ProbeOutcome.scrapeError "ParcelNotFound" 80),
     ("dhl", ProbeOutcome.scrapeError "Blocked" 50)]).2.2.2 (by decide)

/-- The HTTP method of a request to `/save/<parcel_slug>`. -/
inductive HttpMethod where
  | post
  | delete
deriving DecidableEq, Repr

/-- Outcome of the `save_parcel_id` handler: an uncaught Python
`TypeError`, a structured `TitledException` (status code and title), or
a success response (title only). -/
inductive SaveOutcome where
  | uncaughtTypeError
  | titledError (status_code : Nat) (title : String)
  | success (title : String)
deriving DecidableEq, Repr

/-- Model of the `save_parcel_id` handler (app.py lines 799-911), in
source order. `name_arg` is the `name` function argument (supplied only
by the internal call from `save_parcel`); `form_name` is the `name`
form field. Step one resolves the name from the form field, with a
missing or empty field resolving to `None`; step two immediately
evaluates `len(name)`, which raises `TypeError` when `name` is `None` —
before the logger, authentication (`auth_ok`), slug validation and all
database lookups (`saved_row`: the user link with its id and stored
name; `parcel_row`: the parcel id for the slug). -/
def save_parcel_id (method : HttpMethod) (parcel_slug : String)
    (name_arg : Option String) (form_name : Option String) (auth_ok : Bool)
    (saved_row : Option (Int × String)) (parcel_row : Option Int) : SaveOutcome :=
  let name : Option String :=
    match name_arg with
    | some n => some n
    | none =>
      match form_name with
      | some s => if s = "" then none else some s
      | none => none
  match name with
  | none => SaveOutcome.uncaughtTypeError
  | some n =>
    if n.length > 100 then SaveOutcome.titledError 422 "Invalid name"
    else if !auth_ok then SaveOutcome.titledError 401 "Missing authentication key"
    else if !is_slug_valid parcel_slug then
      SaveOutcome.titledError 422 "Invalid parcel slug"
    else
      match saved_row, method with
      | some _, HttpMethod.post => SaveOutcome.titledError 422 "Already saved"
      | some _, HttpMethod.delete => SaveOutcome.success "Removed from saved list"
      | none, HttpMethod.delete =>
          SaveOutcome.titledError 422 "Saved parcel does not exist"
      | none, HttpMethod.post =>
        match parcel_row with
        | none => SaveOutcome.titledError 422 "Parcel does not exist"
        | some _ => SaveOutcome.success "Parcel saved"

/-- HTTP status a `save_parcel_id` outcome surfaces with: an uncaught
`TypeError` propagates to Flask, which renders the default
`InternalServerError` — HTTP 500 (app.py lines 78-83). -/
def flask_surface_status (o : SaveOutcome) : Nat :=
  match o with
  | SaveOutcome.uncaughtTypeError => 500
  | SaveOutcome.titledError s _ => s
  | SaveOutcome.success _ => 200

/-- C10: for every POST or DELETE request with no `name` form field and
no `name` argument, `save_parcel_id` evaluates `len(None)` and ends in
the uncaught `TypeError` (surfaced as HTTP 500) for every slug, every
authentication outcome and every database content — in particular
before slug validation or authentication can reject the request, and
never reaching the structured 400 response for a missing parcel name. -/
theorem save_parcel_id_missing_name_type_error :
    ∀ (method : HttpMethod) (parcel_slug : String) (auth_ok : Bool)
      (saved_row : Option (Int × String)) (parcel_row : Option Int),
      save_parcel_id method parcel_slug none none auth_ok saved_row parcel_row
          = SaveOutcome.uncaughtTypeError
        ∧ flask_surface_status
            (save_parcel_id method parcel_slug none none auth_ok saved_row parcel_row)
          = 500 :=
  fun _ _ _ _ _ => ⟨rfl, rfl⟩
